import Mathlib

/-!
Verification of the priority-renumbering and action-comparison logic of
`softlabs/cloudflare/plugins/modules/cloudflare_page_rule.py`.

The two functions embedded here are `calculate_new_priority` (the pure
priority-renumbering function) and `compare_rule_actions` (content-based
comparison of page-rule action lists).  Python integers are modelled as
`Int`; Python dicts keyed by action id are modelled as `Finmap`, whose
equality is extensional, exactly like Python dict equality.
-/

/-- Shallow embedding of `calculate_new_priority(old_prio, new_prio, rules_count)`
from `cloudflare_page_rule.py` (lines 172-181):

    if rules_count == 1: return 1
    if new_prio > rules_count:
        if old_prio == rules_count: return old_prio
        return rules_count+1
    if new_prio > old_prio: return new_prio+1
    return new_prio
-/
def calculate_new_priority (old_prio new_prio rules_count : Int) : Int :=
  if rules_count = 1 then 1
  else if new_prio > rules_count then
    if old_prio = rules_count then old_prio
    else rules_count + 1
  else if new_prio > old_prio then new_prio + 1
  else new_prio

/-- Modelled from the spec: the piecewise reference contract
`resolve_priority(old_priority, requested_priority, sibling_count)` of
spec section 4.1, written from the spec's words (not from the code):
1 when `sibling_count == 1`; otherwise, when
`requested_priority > sibling_count`, `old_priority` if
`old_priority == sibling_count` else `sibling_count + 1`; otherwise
`requested_priority + 1` when `requested_priority > old_priority`,
else `requested_priority`. -/
def resolve_priority (old_priority requested_priority sibling_count : Int) : Int :=
  if sibling_count = 1 then 1
  else if requested_priority > sibling_count then
    if old_priority = sibling_count then old_priority
    else sibling_count + 1
  else if requested_priority > old_priority then requested_priority + 1
  else requested_priority

/-- A page-rule action: a mapping with an `id` key and an optional `value`
key.  `action.get("value", None)` in the Python source conflates a missing
`value` with an explicit `None`; both are `Option.none` here. -/
structure RuleAction where
  id : String
  value : Option String
deriving DecidableEq, Repr

/-- The dict built by the loops of `compare_rule_actions`:
`_d[action["id"]] = action.get("value", None)` for each action in order,
later assignments to the same id overwriting earlier ones. -/
def actions_to_map (actions : List RuleAction) : Finmap (fun _ : String => Option String) :=
  actions.foldl (fun m a => m.insert a.id a.value) ∅

/-- Shallow embedding of `compare_rule_actions(old_actions, new_actions)`
from `cloudflare_page_rule.py` (lines 161-169): build a dict from each
list keyed by action id and compare the dicts with Python `==`
(extensional equality of finite maps). -/
def compare_rule_actions (old_actions new_actions : List RuleAction) : Bool :=
  decide (actions_to_map old_actions = actions_to_map new_actions)

/-- A list of actions has pairwise distinct `id` keys. -/
def distinct_ids (actions : List RuleAction) : Prop :=
  (actions.map RuleAction.id).Nodup

instance (actions : List RuleAction) : Decidable (distinct_ids actions) := by
  unfold distinct_ids; infer_instance

/-- Claim C1: for every `old_priority >= 1`, `requested_priority >= 1` and
`sibling_count >= 1`, `calculate_new_priority` agrees with the piecewise
reference definition `resolve_priority` of the spec. -/
theorem calculate_new_priority_matches_resolve_priority
    (old_priority requested_priority sibling_count : Int)
    (ho : 1 ≤ old_priority) (hr : 1 ≤ requested_priority)
    (hs : 1 ≤ sibling_count) :
    calculate_new_priority old_priority requested_priority sibling_count =
      resolve_priority old_priority requested_priority sibling_count := rfl

/-- Witness for C1 at the concrete input (2, 4, 3). -/
theorem calculate_new_priority_matches_resolve_priority_witness :
    calculate_new_priority 2 4 3 = resolve_priority 2 4 3 :=
  calculate_new_priority_matches_resolve_priority 2 4 3
    (by decide) (by decide) (by decide)

/-- Claim C2 is false as stated: at `old_priority = 4`,
`requested_priority = 2`, `sibling_count = 1` (all at least 1, with
`requested_priority <= old_priority`) the function returns 1, not the
requested priority 2. -/
theorem calculate_new_priority_requested_le_old_counterexample :
    ¬ (∀ old_prio new_prio rules_count : Int,
        1 ≤ old_prio → 1 ≤ new_prio → 1 ≤ rules_count →
        new_prio ≤ old_prio →
        calculate_new_priority old_prio new_prio rules_count = new_prio) := by
  intro h
  have h42 : calculate_new_priority 4 2 1 = 2 :=
    h 4 2 1 (by decide) (by decide) (by decide) (by decide)
  exact absurd h42 (by decide)

/-- Claim C2 amended: with at least two sibling rules and the requested
priority within `sibling_count + 1`, moving earlier or staying
(`requested_priority <= old_priority`) returns the requested priority
unchanged. -/
theorem calculate_new_priority_requested_le_old
    (old_prio new_prio rules_count : Int)
    (ho : 1 ≤ old_prio) (hr : 1 ≤ new_prio) (hs : 2 ≤ rules_count)
    (hle : new_prio ≤ old_prio) (hbound : new_prio ≤ rules_count + 1) :
    calculate_new_priority old_prio new_prio rules_count = new_prio := by
  unfold calculate_new_priority
  split_ifs <;> omega

/-- Witness for amended C2 at the concrete input (4, 2, 5). -/
theorem calculate_new_priority_requested_le_old_witness :
    calculate_new_priority 4 2 5 = 2 :=
  calculate_new_priority_requested_le_old 4 2 5
    (by decide) (by decide) (by decide) (by decide) (by decide)

/-- Claim C3 is false as stated: at `old_priority = 2`,
`requested_priority = 5`, `sibling_count = 1` (with
`requested_priority > sibling_count` and `old_priority != sibling_count`)
the function returns 1, not `sibling_count + 1 = 2`. -/
theorem calculate_new_priority_clamp_counterexample :
    ¬ (∀ old_prio new_prio rules_count : Int,
        1 ≤ old_prio → 1 ≤ new_prio → 1 ≤ rules_count →
        new_prio > rules_count → old_prio ≠ rules_count →
        calculate_new_priority old_prio new_prio rules_count =
          rules_count + 1) := by
  intro h
  have h251 : calculate_new_priority 2 5 1 = 2 :=
    h 2 5 1 (by decide) (by decide) (by decide) (by decide) (by decide)
  exact absurd h251 (by decide)

/-- Claim C3 amended: with at least two sibling rules, a requested
priority beyond the end for a rule that is not already last clamps to
`sibling_count + 1`. -/
theorem calculate_new_priority_clamp
    (old_prio new_prio rules_count : Int)
    (ho : 1 ≤ old_prio) (hr : 1 ≤ new_prio) (hs : 2 ≤ rules_count)
    (hgt : new_prio > rules_count) (hne : old_prio ≠ rules_count) :
    calculate_new_priority old_prio new_prio rules_count =
      rules_count + 1 := by
  unfold calculate_new_priority
  split_ifs <;> omega

/-- Witness for amended C3 at the concrete input (2, 9, 5). -/
theorem calculate_new_priority_clamp_witness :
    calculate_new_priority 2 9 5 = 6 :=
  calculate_new_priority_clamp 2 9 5
    (by decide) (by decide) (by decide) (by decide) (by decide)

/-- Claim C4: for positive x and y, a sole rule always gets priority 1. -/
theorem calculate_new_priority_single_rule (x y : Int)
    (hx : 1 ≤ x) (hy : 1 ≤ y) :
    calculate_new_priority x y 1 = 1 := by
  unfold calculate_new_priority
  split_ifs <;> omega

/-- Witness for C4 at the concrete input (7, 3). -/
theorem calculate_new_priority_single_rule_witness :
    calculate_new_priority 7 3 1 = 1 :=
  calculate_new_priority_single_rule 7 3 (by decide) (by decide)

/-- Claim C5: a rule already in last position asked to move beyond the
end keeps its old priority; in particular at (5, 9, 5) the result is 5. -/
theorem calculate_new_priority_already_last
    (old_prio new_prio rules_count : Int)
    (ho : 1 ≤ old_prio) (hr : 1 ≤ new_prio) (hs : 1 ≤ rules_count)
    (heq : old_prio = rules_count) (hgt : new_prio > rules_count) :
    calculate_new_priority old_prio new_prio rules_count = old_prio := by
  unfold calculate_new_priority
  split_ifs <;> omega

/-- Witness for C5 at the concrete input (5, 9, 5). -/
theorem calculate_new_priority_already_last_witness :
    calculate_new_priority 5 9 5 = 5 :=
  calculate_new_priority_already_last 5 9 5
    (by decide) (by decide) (by decide) (by decide) (by decide)

/-- Claim C6: moving later within range
(`old_priority < requested_priority <= sibling_count`) returns
`requested_priority + 1`. -/
theorem calculate_new_priority_move_later
    (old_prio new_prio rules_count : Int)
    (ho : 1 ≤ old_prio) (hr : 1 ≤ new_prio) (hs : 1 ≤ rules_count)
    (hlt : old_prio < new_prio) (hle : new_prio ≤ rules_count) :
    calculate_new_priority old_prio new_prio rules_count =
      new_prio + 1 := by
  unfold calculate_new_priority
  split_ifs <;> omega

/-- Witness for C6 at the concrete input (1, 3, 5). -/
theorem calculate_new_priority_move_later_witness :
    calculate_new_priority 1 3 5 = 4 :=
  calculate_new_priority_move_later 1 3 5
    (by decide) (by decide) (by decide) (by decide) (by decide)

/-- Claim C7: on the moving-earlier branch
(`requested_priority <= old_priority`) the result is a fixed point of a
second application with the same requested priority and sibling count. -/
theorem calculate_new_priority_stable
    (old_prio new_prio rules_count : Int)
    (ho : 1 ≤ old_prio) (hr : 1 ≤ new_prio) (hs : 1 ≤ rules_count)
    (hle : new_prio ≤ old_prio) :
    calculate_new_priority
        (calculate_new_priority old_prio new_prio rules_count)
        new_prio rules_count =
      calculate_new_priority old_prio new_prio rules_count := by
  unfold calculate_new_priority
  split_ifs <;> omega

/-- Witness for C7 at the concrete input (4, 2, 5). -/
theorem calculate_new_priority_stable_witness :
    calculate_new_priority (calculate_new_priority 4 2 5) 2 5 =
      calculate_new_priority 4 2 5 :=
  calculate_new_priority_stable 4 2 5
    (by decide) (by decide) (by decide) (by decide)

/-- Claim C8: `calculate_new_priority` is total on its documented domain:
every run reaches one of the four return statements, so the result is
always one of the integers 1, `old_prio`, `rules_count + 1`,
`new_prio + 1`, `new_prio`; no branch is an error branch. -/
theorem calculate_new_priority_total
    (old_prio new_prio rules_count : Int)
    (ho : 1 ≤ old_prio) (hr : 1 ≤ new_prio) (hs : 1 ≤ rules_count) :
    calculate_new_priority old_prio new_prio rules_count = 1 ∨
    calculate_new_priority old_prio new_prio rules_count = old_prio ∨
    calculate_new_priority old_prio new_prio rules_count =
      rules_count + 1 ∨
    calculate_new_priority old_prio new_prio rules_count =
      new_prio + 1 ∨
    calculate_new_priority old_prio new_prio rules_count = new_prio := by
  unfold calculate_new_priority
  split_ifs <;> simp

/-- Witness for C8 at the concrete input (2, 9, 5). -/
theorem calculate_new_priority_total_witness :
    calculate_new_priority 2 9 5 = 1 ∨
    calculate_new_priority 2 9 5 = 2 ∨
    calculate_new_priority 2 9 5 = 6 ∨
    calculate_new_priority 2 9 5 = 10 ∨
    calculate_new_priority 2 9 5 = 9 :=
  calculate_new_priority_total 2 9 5 (by decide) (by decide) (by decide)

/-- Claim C9: the result is always a valid clamped position, between 1
and `sibling_count + 1` inclusive. -/
theorem calculate_new_priority_bounds
    (old_prio new_prio rules_count : Int)
    (ho : 1 ≤ old_prio) (hr : 1 ≤ new_prio) (hs : 1 ≤ rules_count) :
    1 ≤ calculate_new_priority old_prio new_prio rules_count ∧
      calculate_new_priority old_prio new_prio rules_count ≤
        rules_count + 1 := by
  unfold calculate_new_priority
  split_ifs <;> omega

/-- Witness for C9 at the concrete input (1, 3, 5). -/
theorem calculate_new_priority_bounds_witness :
    1 ≤ calculate_new_priority 1 3 5 ∧ calculate_new_priority 1 3 5 ≤ 6 :=
  calculate_new_priority_bounds 1 3 5 (by decide) (by decide) (by decide)

/-- With pairwise distinct ids, the dict built by `compare_rule_actions`
does not depend on the order of the action list: insertions at distinct
keys commute. -/
theorem actions_to_map_perm {l l' : List RuleAction}
    (hd : distinct_ids l) (hp : l.Perm l') :
    actions_to_map l = actions_to_map l' := by
  unfold actions_to_map
  refine hp.foldl_eq' ?_ ∅
  intro x hx y hy m
  by_cases hxy : x = y
  · subst hxy; rfl
  · have hid : x.id ≠ y.id := fun h =>
      hxy (List.inj_on_of_nodup_map hd hx hy h)
    exact Finmap.insert_insert_of_ne m hid

/-- Claim C10: `compare_rule_actions` compares action lists by content:
for lists with pairwise distinct ids, the result is unchanged by
permuting either list, comparing a list with itself yields `true`, and
the comparison is symmetric in its two arguments. -/
theorem compare_rule_actions_content_based
    (old_actions new_actions old_perm new_perm : List RuleAction)
    (hod : distinct_ids old_actions) (hnd : distinct_ids new_actions)
    (hop : old_actions.Perm old_perm) (hnp : new_actions.Perm new_perm) :
    compare_rule_actions old_perm new_perm =
      compare_rule_actions old_actions new_actions ∧
    compare_rule_actions old_actions old_actions = true ∧
    compare_rule_actions old_actions new_actions =
      compare_rule_actions new_actions old_actions := by
  refine ⟨?_, ?_, ?_⟩
  · unfold compare_rule_actions
    rw [actions_to_map_perm hod hop, actions_to_map_perm hnd hnp]
  · unfold compare_rule_actions
    exact decide_eq_true rfl
  · unfold compare_rule_actions
    simp [eq_comm]

/-- Witness for C10: two two-element action lists with distinct ids,
one permuted, compared both ways. -/
theorem compare_rule_actions_content_based_witness :
    compare_rule_actions
        [⟨"cache_level", some "bypass"⟩, ⟨"disable_apps", none⟩]
        [⟨"cache_level", some "aggressive"⟩] =
      compare_rule_actions
        [⟨"disable_apps", none⟩, ⟨"cache_level", some "bypass"⟩]
        [⟨"cache_level", some "aggressive"⟩] ∧
    compare_rule_actions
        [⟨"disable_apps", none⟩, ⟨"cache_level", some "bypass"⟩]
        [⟨"disable_apps", none⟩, ⟨"cache_level", some "bypass"⟩] = true ∧
    compare_rule_actions
        [⟨"disable_apps", none⟩, ⟨"cache_level", some "bypass"⟩]
        [⟨"cache_level", some "aggressive"⟩] =
      compare_rule_actions
        [⟨"cache_level", some "aggressive"⟩]
        [⟨"disable_apps", none⟩, ⟨"cache_level", some "bypass"⟩] :=
  compare_rule_actions_content_based
    [⟨"disable_apps", none⟩, ⟨"cache_level", some "bypass"⟩]
    [⟨"cache_level", some "aggressive"⟩]
    [⟨"cache_level", some "bypass"⟩, ⟨"disable_apps", none⟩]
    [⟨"cache_level", some "aggressive"⟩]
    (by decide) (by decide) (List.Perm.swap _ _ _) (List.Perm.refl _)
